import Mathlib

/-!
Shallow embedding of the Spirit Hatch virtual-pet engine.

The HTTP variant (`main.py`) holds one mutable `game_state` dict and three
engine functions: `update_stats` (lazy time advance: decay, health
cross-effect, death check, day tick), `check_random_event`, and
`perform_action` (string-dispatched actions).  The terminal variant
(`spirit_hatch.py`) has class `SpiritAnimal` with its own `evolve` /
`can_evolve` and class `Game` with `update_game_days`.

Stats are Python floats; we model them as exact rationals (`ℚ`).
Wall-clock instants (`time.time()` / `datetime.now()`) are rationals; each
operation takes the current instant `now` as an argument.  Randomness
(`random.randint`, `random.random`, `random.choice`) is modelled by passing
the drawn values in explicitly: natural-number draws for the `randint`
calls, a `Bool` for whether the 20% event roll fires, `Fin` indices for
uniform choices.  A Python `IndexError` is modelled as `Except.error`.
-/

namespace SpiritHatch

/-- One entry of the `EVOLUTION_STAGES` catalog (name, days_required, emoji
omitted as display-only except the name). -/
structure Stage where
  sname : String
  days_required : ℕ
  deriving DecidableEq, Repr

/-- `EVOLUTION_STAGES` from `main.py` lines 19-25 (identical catalog in
`spirit_hatch.py` lines 16-22). -/
def EVOLUTION_STAGES : List Stage :=
  [⟨"Egg", 0⟩, ⟨"Hatchling", 1⟩, ⟨"Young Spirit", 3⟩,
   ⟨"Mature Spirit", 5⟩, ⟨"Ancient Spirit", 8⟩]

/-- One entry of the `RANDOM_EVENTS` catalog: the `effects` dict is a sparse
map from stat name to signed delta, modelled as three `Option ℤ` fields. -/
structure REvent where
  ename : String
  hungerEff : Option ℤ
  happinessEff : Option ℤ
  healthEff : Option ℤ
  deriving DecidableEq, Repr

/-- `RANDOM_EVENTS` from `main.py` lines 27-82 (names and stat effects;
message templates and emoji are display-only). -/
def RANDOM_EVENTS : List REvent :=
  [⟨"Shiny Stone", some (-5), some 15, none⟩,
   ⟨"Gentle Rain", none, some 10, some 10⟩,
   ⟨"Wild Spirit Visit", some (-10), some 20, none⟩,
   ⟨"Mysterious Berry", some 15, none, some 5⟩,
   ⟨"Dark Cloud", none, some (-10), some (-5)⟩,
   ⟨"Shooting Star", none, some 25, some 10⟩,
   ⟨"Ancient Whisper", some 10, some 15, some 15⟩,
   ⟨"Spirit Feast", some 25, some 15, none⟩,
   ⟨"Moonbeam", none, some 10, some 20⟩]

/-- `clamp` from `main.py` lines 101-103: `max(min_val, min(max_val, value))`. -/
def clamp (value min_val max_val : ℚ) : ℚ :=
  max min_val (min max_val value)

/-- The `game_state` dict of `main.py` lines 85-99. -/
@[ext]
structure GameState where
  name : String
  hunger : ℚ
  happiness : ℚ
  health : ℚ
  age_days : ℕ
  evolution_stage : ℕ
  interactions : ℕ
  events_experienced : ℕ
  is_alive : Bool
  start_time : ℚ
  last_update : ℚ
  last_day_update : ℚ
  last_event_check : ℚ
  deriving DecidableEq, Repr

/-- `update_stats` from `main.py` lines 105-134: no-op when dead; linear
decay of hunger and happiness at 0.3/s floored at 0; health cross-effect;
death check; then the day tick (`+1` day and reset of `last_day_update`
when at least 30 s have elapsed since the last day tick). -/
def update_stats (now : ℚ) (s : GameState) : GameState :=
  if s.is_alive = false then s
  else
    let time_diff := now - s.last_update
    let hunger := max 0 (s.hunger - 0.3 * time_diff)
    let happiness := max 0 (s.happiness - 0.3 * time_diff)
    let health :=
      if hunger < 30 ∨ happiness < 30 then max 0 (s.health - 0.1 * time_diff)
      else if 70 < hunger ∧ 70 < happiness then min 100 (s.health + 0.05 * time_diff)
      else s.health
    let alive := !(decide (hunger ≤ 0) || decide (happiness ≤ 0) || decide (health ≤ 0))
    if 30 ≤ now - s.last_day_update then
      { s with last_update := now, hunger := hunger, happiness := happiness,
               health := health, is_alive := alive,
               age_days := s.age_days + 1, last_day_update := now }
    else
      { s with last_update := now, hunger := hunger, happiness := happiness,
               health := health, is_alive := alive }

/-- Application of one entry of an event's sparse `effects` dict
(`main.py` lines 151-156): present keys are clamped into [0,100]. -/
def apply_effect (stat : ℚ) (eff : Option ℤ) : ℚ :=
  match eff with
  | none => stat
  | some d => clamp (stat + (d : ℚ)) 0 100

/-- `check_random_event` from `main.py` lines 136-161.  `fire` is the
outcome of `random.random() < 0.20`, `idx` the uniform `random.choice`
over the 9-entry catalog.  Returns the triggered event (if any) and the
new state. -/
def check_random_event (now : ℚ) (fire : Bool) (idx : Fin 9) (s : GameState) :
    Option REvent × GameState :=
  if s.is_alive = false then (none, s)
  else if 60 ≤ now - s.last_event_check then
    let s1 := { s with last_event_check := now }
    if fire then
      let ev := RANDOM_EVENTS.getD idx.1 ⟨"", none, none, none⟩
      (some ev,
       { s1 with hunger := apply_effect s1.hunger ev.hungerEff,
                 happiness := apply_effect s1.happiness ev.happinessEff,
                 health := apply_effect s1.health ev.healthEff,
                 events_experienced := s1.events_experienced + 1 })
    else (none, s1)
  else (none, s)

/-- The random draws one `perform_action` call may consume: up to three
`random.randint` results, the explore outcome (uniform over
great/good/neutral/bad in that order), and a message-pool choice. -/
structure Draws where
  r1 : ℕ
  r2 : ℕ
  r3 : ℕ
  outcome : Fin 4
  msg : ℕ
  deriving DecidableEq, Repr

/-- `random.choice` over a fixed message pool, driven by a supplied index. -/
def choice (pool : List String) (k : ℕ) : String :=
  pool.getD (k % pool.length) ""

/-- Result of `perform_action`: `errorInvalid` is the
`{"error": "Invalid action"}` dict, `failure` the
`{"success": False, "message": ...}` dict, `ok` the
`{"success": True, "message": ..., "state": ..., "stage": ...}` dict (the
state is returned alongside; the `stage` field is the catalog entry at
`evolution_stage`, derived data). -/
inductive ActionResult where
  | errorInvalid : ActionResult
  | failure : String → ActionResult
  | ok : String → ActionResult
  deriving DecidableEq, Repr

/-- The `action == "feed"` branch of `perform_action` (`main.py` lines
174-186). -/
def feed_action (d : Draws) (s : GameState) : ActionResult × GameState :=
  if 95 ≤ s.hunger then (.ok (s.name ++ " is already full! 🍽️"), s)
  else
    (.ok (choice [s.name ++ " happily munches on spiritual energy! ✨",
                  s.name ++ " glows brighter as it feeds! 🌟",
                  s.name ++ " feels nourished and content! 💫"] d.msg),
     { s with hunger := min 100 (s.hunger + (d.r1 : ℚ)),
              health := min 100 (s.health + (d.r2 : ℚ)),
              interactions := s.interactions + 1 })

/-- The `action == "play"` branch (`main.py` lines 188-200). -/
def play_action (d : Draws) (s : GameState) : ActionResult × GameState :=
  if 95 ≤ s.happiness then (.ok (s.name ++ " is already very happy! 😊"), s)
  else
    (.ok (choice [s.name ++ " playfully dances around you! 💃",
                  s.name ++ " sparkles with joy! ✨😊",
                  s.name ++ " does a happy spin! 🌀"] d.msg),
     { s with happiness := min 100 (s.happiness + (d.r1 : ℚ)),
              hunger := max 0 (s.hunger - (d.r2 : ℚ)),
              interactions := s.interactions + 1 })

/-- The `action == "rest"` branch (`main.py` lines 202-214). -/
def rest_action (d : Draws) (s : GameState) : ActionResult × GameState :=
  if 95 ≤ s.health then (.ok (s.name ++ " is already well-rested! 😴"), s)
  else
    (.ok (choice [s.name ++ " curls up and rests peacefully... 😴",
                  s.name ++ " takes a rejuvenating nap! 💤",
                  s.name ++ " meditates and restores energy! 🧘"] d.msg),
     { s with health := min 100 (s.health + (d.r1 : ℚ)),
              happiness := min 100 (s.happiness + (d.r2 : ℚ)),
              interactions := s.interactions + 1 })

/-- The `action == "train"` branch (`main.py` lines 216-226). -/
def train_action (d : Draws) (s : GameState) : ActionResult × GameState :=
  (.ok (choice [s.name ++ " practices spiritual techniques! 🥋",
                s.name ++ " trains diligently! 💪",
                s.name ++ " masters a new skill! 🎯"] d.msg),
   { s with health := min 100 (s.health + (d.r1 : ℚ)),
            happiness := min 100 (s.happiness + (d.r2 : ℚ)),
            hunger := max 0 (s.hunger - (d.r3 : ℚ)),
            interactions := s.interactions + 1 })

/-- The `action == "explore"` branch (`main.py` lines 228-250); the
outcome index encodes `random.choice(["great", "good", "neutral", "bad"])`
in that order. -/
def explore_action (d : Draws) (s : GameState) : ActionResult × GameState :=
  if d.outcome = 0 then
    (.ok (s.name ++ " discovers a magical paradise! 🌺✨"),
     { s with happiness := min 100 (s.happiness + (d.r1 : ℚ)),
              hunger := min 100 (s.hunger + (d.r2 : ℚ)),
              health := min 100 (s.health + (d.r3 : ℚ)),
              interactions := s.interactions + 1 })
  else if d.outcome = 1 then
    (.ok (s.name ++ " has a pleasant adventure! 🗺️"),
     { s with happiness := min 100 (s.happiness + (d.r1 : ℚ)),
              hunger := min 100 (s.hunger + (d.r2 : ℚ)),
              interactions := s.interactions + 1 })
  else if d.outcome = 2 then
    (.ok (s.name ++ " wanders around safely. 🚶"),
     { s with happiness := min 100 (s.happiness + (d.r1 : ℚ)),
              hunger := max 0 (s.hunger - (d.r2 : ℚ)),
              interactions := s.interactions + 1 })
  else
    (.ok (s.name ++ " gets lost and returns tired... 😰"),
     { s with happiness := max 0 (s.happiness - (d.r1 : ℚ)),
              health := max 0 (s.health - (d.r2 : ℚ)),
              hunger := max 0 (s.hunger - (d.r3 : ℚ)),
              interactions := s.interactions + 1 })

/-- The `action == "meditate"` branch (`main.py` lines 252-262). -/
def meditate_action (d : Draws) (s : GameState) : ActionResult × GameState :=
  (.ok (choice [s.name ++ " enters a meditative state... 🧘‍♀️✨",
                s.name ++ " connects with cosmic energy! 🌌",
                s.name ++ " achieves inner peace! ☯️"] d.msg),
   { s with health := min 100 (s.health + (d.r1 : ℚ)),
            happiness := min 100 (s.happiness + (d.r2 : ℚ)),
            hunger := min 100 (s.hunger + (d.r3 : ℚ)),
            interactions := s.interactions + 1 })

/-- The `action == "groom"` branch (`main.py` lines 264-276). -/
def groom_action (d : Draws) (s : GameState) : ActionResult × GameState :=
  if 90 ≤ s.happiness ∧ 90 ≤ s.health then
    (.ok (s.name ++ " is already pristine! ✨"), s)
  else
    (.ok (choice [s.name ++ " enjoys being groomed! ✨🪮",
                  "You tend to " ++ s.name ++ "\x27s form! 🌟",
                  s.name ++ " feels pampered! 💆‍♀️💕"] d.msg),
     { s with happiness := min 100 (s.happiness + (d.r1 : ℚ)),
              health := min 100 (s.health + (d.r2 : ℚ)),
              interactions := s.interactions + 1 })

/-- The `action == "evolve"` branch (`main.py` lines 278-298): final-stage
check first, then the age gate against the next stage, then the stat gate;
on success the stage advances by one and all three stats get +20 capped at
100 (no interaction increment).  The `EVOLUTION_STAGES[...+1]` access is
guarded by the final-stage check, hence in bounds, so a total `getD`
lookup is faithful. -/
def evolve_action (s : GameState) : ActionResult × GameState :=
  if EVOLUTION_STAGES.length - 1 ≤ s.evolution_stage then
    (.ok ("🌟 " ++ s.name ++ " is at maximum evolution!"), s)
  else
    let next := EVOLUTION_STAGES.getD (s.evolution_stage + 1) ⟨"", 0⟩
    if s.age_days < next.days_required then
      (.ok ("❌ Need " ++ toString (next.days_required - s.age_days) ++
            " more day(s) to evolve!"), s)
    else if s.hunger < 50 ∨ s.happiness < 50 ∨ s.health < 50 then
      (.ok "❌ All stats must be above 50 to evolve!", s)
    else
      let old := EVOLUTION_STAGES.getD s.evolution_stage ⟨"", 0⟩
      let new := EVOLUTION_STAGES.getD (s.evolution_stage + 1) ⟨"", 0⟩
      (.ok ("✨ EVOLUTION! ✨\n" ++ old.sname ++ " → " ++ new.sname ++ "!"),
       { s with evolution_stage := s.evolution_stage + 1,
                hunger := min 100 (s.hunger + 20),
                happiness := min 100 (s.happiness + 20),
                health := min 100 (s.health + 20) })

/-- The action-dispatch chain of `perform_action` (`main.py` lines
172-308), i.e. everything after the initial `update_stats()` call and
aliveness check: an `if/elif` chain on the action string, falling through
to the `{"error": "Invalid action"}` return. -/
def action_dispatch (d : Draws) (action : String) (s : GameState) :
    ActionResult × GameState :=
  if action = "feed" then feed_action d s
  else if action = "play" then play_action d s
  else if action = "rest" then rest_action d s
  else if action = "train" then train_action d s
  else if action = "explore" then explore_action d s
  else if action = "meditate" then meditate_action d s
  else if action = "groom" then groom_action d s
  else if action = "evolve" then evolve_action s
  else (.errorInvalid, s)

/-- `perform_action` from `main.py` lines 163-308: runs `update_stats`
first, fails with the deceased message when the (possibly just-updated)
pet is dead, otherwise dispatches on the action string. -/
def perform_action (now : ℚ) (d : Draws) (action : String) (s : GameState) :
    ActionResult × GameState :=
  let s1 := update_stats now s
  if s1.is_alive = false then (.failure "Your spirit has faded...", s1)
  else action_dispatch d action s1

/-- The `GET /api/state` handler's engine calls (`main.py` lines 332-348):
`update_stats()` then `check_random_event()`; returns the state and the
triggered event, if any. -/
def get_state (now : ℚ) (fire : Bool) (idx : Fin 9) (s : GameState) :
    GameState × Option REvent :=
  let s1 := update_stats now s
  let r := check_random_event now fire idx s1
  (r.2, r.1)

/-- One engine operation of the HTTP variant, used to talk about arbitrary
operation sequences: a bare time advance, a `GET /api/state` read
(advance + event check), or a `POST /api/action/...` call. -/
inductive Op where
  | advance : ℚ → Op
  | read : ℚ → Bool → Fin 9 → Op
  | act : ℚ → Draws → String → Op
  deriving DecidableEq, Repr

/-- Effect of one operation on the game state. -/
def step (o : Op) (s : GameState) : GameState :=
  match o with
  | .advance now => update_stats now s
  | .read now fire idx => (get_state now fire idx s).1
  | .act now d a => (perform_action now d a s).2

/-- Effect of a sequence of operations, first element first. -/
def run (ops : List Op) (s : GameState) : GameState :=
  ops.foldl (fun t o => step o t) s

/-- The fields of `spirit_hatch.py`'s `SpiritAnimal` that its evolution
logic reads or writes (display-tracking fields omitted). -/
structure Spirit where
  name : String
  hunger : ℚ
  happiness : ℚ
  health : ℚ
  age_days : ℕ
  evolution_stage : ℕ
  interactions : ℕ
  is_alive : Bool
  deriving DecidableEq, Repr

/-- `SpiritAnimal.can_evolve` from `spirit_hatch.py` lines 169-175: false at
the final stage, otherwise compares `age_days` against the next stage's
`days_required` (the index `evolution_stage + 1` is in bounds there because
of the first check, so a total `getD` lookup is faithful). -/
def can_evolve (p : Spirit) : Bool :=
  if EVOLUTION_STAGES.length - 1 ≤ p.evolution_stage then false
  else
    decide ((EVOLUTION_STAGES.getD (p.evolution_stage + 1) ⟨"", 0⟩).days_required
              ≤ p.age_days)

/-- `SpiritAnimal.evolve` from `spirit_hatch.py` lines 177-203, kept in the
source's exact check order.  In the `not can_evolve()` branch the code
evaluates `EVOLUTION_STAGES[self.evolution_stage + 1]` before building the
message; when that index is out of bounds Python raises `IndexError`,
modelled as `Except.error`.  On success the returned message and the new
state are paired. -/
def Spirit.evolve (p : Spirit) : Except String (String × Spirit) :=
  if p.is_alive = false then .ok ("Your spirit has already faded...", p)
  else if can_evolve p = false then
    match EVOLUTION_STAGES.get? (p.evolution_stage + 1) with
    | none => .error "IndexError: list index out of range"
    | some next =>
        .ok ("❌ " ++ p.name ++ " needs " ++
             toString ((next.days_required : ℤ) - (p.age_days : ℤ)) ++
             " more day(s) of care to evolve!", p)
  else if EVOLUTION_STAGES.length - 1 ≤ p.evolution_stage then
    .ok ("🌟 " ++ p.name ++ " is already at maximum evolution!", p)
  else if p.hunger < 50 ∨ p.happiness < 50 ∨ p.health < 50 then
    .ok ("❌ " ++ p.name ++ " needs better care to evolve! (All stats must be above 50)", p)
  else
    let p1 := { p with evolution_stage := p.evolution_stage + 1 }
    .ok ("✨ EVOLUTION! ✨",
         { p1 with hunger := min 100 (p1.hunger + 20),
                   happiness := min 100 (p1.happiness + 20),
                   health := min 100 (p1.health + 20) })

/-- `Game.update_game_days` from `spirit_hatch.py` lines 325-336, applied to
the data it touches: the current instant, the stored `last_day_update`, and
the pet's `age_days`.  Returns `(days_passed, new age_days, new
last_day_update)`; `int(time_diff / 30)` truncates, which on the
non-negative guard branch is the floor. -/
def update_game_days (now last_day : ℚ) (age : ℕ) : ℕ × ℕ × ℚ :=
  if 30 ≤ now - last_day then
    let days_passed := (⌊(now - last_day) / 30⌋).toNat
    (days_passed, age + days_passed, now)
  else (0, age, last_day)

/-- The three core stats lie in the documented domain [0,100]. -/
abbrev InRange (s : GameState) : Prop :=
  0 ≤ s.hunger ∧ s.hunger ≤ 100 ∧ 0 ≤ s.happiness ∧ s.happiness ≤ 100 ∧
  0 ≤ s.health ∧ s.health ≤ 100

/-- The freshly created `game_state` of `main.py` lines 85-99 / 364-378
(all stats 50, stage 0, alive, counters zero), at clock instant 0. -/
def cs : GameState :=
  ⟨"Spirit", 50, 50, 50, 0, 0, 0, 0, true, 0, 0, 0, 0⟩

/-- A fixed assignment of random draws (any values would do). -/
def d0 : Draws := ⟨0, 0, 0, 0, 0⟩

/-- A live pet with every stat at 96, so that all saturation guards hold. -/
def s96 : GameState :=
  ⟨"Spirit", 96, 96, 96, 0, 0, 0, 0, true, 0, 0, 0, 0⟩

/-- A live terminal-variant pet at the final catalog stage (index 4). -/
def pMax : Spirit := ⟨"Spirit", 80, 80, 80, 10, 4, 0, true⟩

/-- A live HTTP-variant pet at the final catalog stage (index 4). -/
def sMax : GameState :=
  ⟨"Spirit", 80, 80, 80, 10, 4, 0, 0, true, 0, 0, 0, 0⟩

/-- A live pet with happiness 10 whose event timer has long elapsed and
whose other timers read instant 100, so that at instant 100 only the event
check does anything. -/
def c9s : GameState :=
  ⟨"Spirit", 80, 10, 50, 0, 0, 0, 0, true, 0, 100, 100, 0⟩

/-- A deceased pet. -/
def csDead : GameState :=
  ⟨"Spirit", 0, 20, 20, 3, 1, 7, 2, false, 0, 0, 0, 0⟩

/-- A live pet whose hunger will be below 30 after a 10-second decay, so
the health-penalty branch of the cross-effect fires. -/
def s6 : GameState :=
  ⟨"Spirit", 20, 50, 50, 0, 0, 0, 0, true, 0, 0, 0, 0⟩

/-- The state `c9s` after one `getState` at instant 100 that fires the
Dark Cloud event: happiness floored at 0, health down to 45, still alive. -/
def c9s1 : GameState :=
  ⟨"Spirit", 80, 0, 45, 0, 0, 0, 1, true, 0, 100, 100, 100⟩

/-- The state `c9s1` after a second `getState` at the same instant 100:
the death check sees happiness 0 and flips the alive flag. -/
def c9s2 : GameState :=
  ⟨"Spirit", 80, 0, 45, 0, 0, 0, 1, false, 0, 100, 100, 100⟩

lemma update_stats_dead (now : ℚ) (s : GameState) (h : s.is_alive = false) :
    update_stats now s = s := by
  simp [update_stats, h]

lemma check_random_event_dead (now : ℚ) (f : Bool) (i : Fin 9) (s : GameState)
    (h : s.is_alive = false) : check_random_event now f i s = (none, s) := by
  simp [check_random_event, h]

/-- Hunger after a live `update_stats`: linear decay floored at 0. -/
lemma update_hunger_eq (now : ℚ) (s : GameState) (h : s.is_alive = true) :
    (update_stats now s).hunger = max 0 (s.hunger - 0.3 * (now - s.last_update)) := by
  unfold update_stats
  rw [if_neg (by simp [h])]
  dsimp only
  split <;> rfl

/-- Happiness after a live `update_stats`: linear decay floored at 0. -/
lemma update_happiness_eq (now : ℚ) (s : GameState) (h : s.is_alive = true) :
    (update_stats now s).happiness = max 0 (s.happiness - 0.3 * (now - s.last_update)) := by
  unfold update_stats
  rw [if_neg (by simp [h])]
  dsimp only
  split <;> rfl

/-- Health after a live `update_stats`: the cross-effect on the decayed
hunger and happiness values. -/
lemma update_health_eq (now : ℚ) (s : GameState) (h : s.is_alive = true) :
    (update_stats now s).health =
      (if max 0 (s.hunger - 0.3 * (now - s.last_update)) < 30 ∨
          max 0 (s.happiness - 0.3 * (now - s.last_update)) < 30 then
         max 0 (s.health - 0.1 * (now - s.last_update))
       else if 70 < max 0 (s.hunger - 0.3 * (now - s.last_update)) ∧
               70 < max 0 (s.happiness - 0.3 * (now - s.last_update)) then
         min 100 (s.health + 0.05 * (now - s.last_update))
       else s.health) := by
  unfold update_stats
  rw [if_neg (by simp [h])]
  dsimp only
  split <;> rfl

lemma min_add_nonneg {x c : ℚ} (hc : 0 ≤ c) (hx : 0 ≤ x) : 0 ≤ min 100 (x + c) :=
  le_min (by norm_num) (by linarith)

lemma min_add_le (x y : ℚ) : min 100 (x + y) ≤ 100 := min_le_left _ _

lemma max_sub_nonneg (x y : ℚ) : 0 ≤ max 0 (x - y) := le_max_left _ _

lemma max_sub_le {x c : ℚ} (hc : 0 ≤ c) (hx : x ≤ 100) : max 0 (x - c) ≤ 100 :=
  max_le (by norm_num) (by linarith)

lemma apply_effect_nonneg {x : ℚ} (e : Option ℤ) (hx : 0 ≤ x) :
    0 ≤ apply_effect x e := by
  cases e
  · exact hx
  · exact le_max_left _ _

lemma apply_effect_le {x : ℚ} (e : Option ℤ) (hx : x ≤ 100) :
    apply_effect x e ≤ 100 := by
  cases e
  · exact hx
  · exact max_le (by norm_num) (min_le_left _ _)

lemma feed_range (d : Draws) (s : GameState) (h : InRange s) :
    InRange (feed_action d s).2 := by
  obtain ⟨h1, h2, h3, h4, h5, h6⟩ := h
  unfold feed_action
  split
  · exact ⟨h1, h2, h3, h4, h5, h6⟩
  · exact ⟨min_add_nonneg (Nat.cast_nonneg _) h1, min_add_le _ _, h3, h4,
           min_add_nonneg (Nat.cast_nonneg _) h5, min_add_le _ _⟩

lemma play_range (d : Draws) (s : GameState) (h : InRange s) :
    InRange (play_action d s).2 := by
  obtain ⟨h1, h2, h3, h4, h5, h6⟩ := h
  unfold play_action
  split
  · exact ⟨h1, h2, h3, h4, h5, h6⟩
  · exact ⟨max_sub_nonneg _ _, max_sub_le (Nat.cast_nonneg _) h2,
           min_add_nonneg (Nat.cast_nonneg _) h3, min_add_le _ _, h5, h6⟩

lemma rest_range (d : Draws) (s : GameState) (h : InRange s) :
    InRange (rest_action d s).2 := by
  obtain ⟨h1, h2, h3, h4, h5, h6⟩ := h
  unfold rest_action
  split
  · exact ⟨h1, h2, h3, h4, h5, h6⟩
  · exact ⟨h1, h2, min_add_nonneg (Nat.cast_nonneg _) h3, min_add_le _ _,
           min_add_nonneg (Nat.cast_nonneg _) h5, min_add_le _ _⟩

lemma train_range (d : Draws) (s : GameState) (h : InRange s) :
    InRange (train_action d s).2 := by
  obtain ⟨h1, h2, h3, h4, h5, h6⟩ := h
  exact ⟨max_sub_nonneg _ _, max_sub_le (Nat.cast_nonneg _) h2,
         min_add_nonneg (Nat.cast_nonneg _) h3, min_add_le _ _,
         min_add_nonneg (Nat.cast_nonneg _) h5, min_add_le _ _⟩

lemma explore_range (d : Draws) (s : GameState) (h : InRange s) :
    InRange (explore_action d s).2 := by
  obtain ⟨h1, h2, h3, h4, h5, h6⟩ := h
  unfold explore_action
  repeat' split
  · exact ⟨min_add_nonneg (Nat.cast_nonneg _) h1, min_add_le _ _,
           min_add_nonneg (Nat.cast_nonneg _) h3, min_add_le _ _,
           min_add_nonneg (Nat.cast_nonneg _) h5, min_add_le _ _⟩
  · exact ⟨min_add_nonneg (Nat.cast_nonneg _) h1, min_add_le _ _,
           min_add_nonneg (Nat.cast_nonneg _) h3, min_add_le _ _, h5, h6⟩
  · exact ⟨max_sub_nonneg _ _, max_sub_le (Nat.cast_nonneg _) h2,
           min_add_nonneg (Nat.cast_nonneg _) h3, min_add_le _ _, h5, h6⟩
  · exact ⟨max_sub_nonneg _ _, max_sub_le (Nat.cast_nonneg _) h2,
           max_sub_nonneg _ _, max_sub_le (Nat.cast_nonneg _) h4,
           max_sub_nonneg _ _, max_sub_le (Nat.cast_nonneg _) h6⟩

lemma meditate_range (d : Draws) (s : GameState) (h : InRange s) :
    InRange (meditate_action d s).2 := by
  obtain ⟨h1, h2, h3, h4, h5, h6⟩ := h
  exact ⟨min_add_nonneg (Nat.cast_nonneg _) h1, min_add_le _ _,
         min_add_nonneg (Nat.cast_nonneg _) h3, min_add_le _ _,
         min_add_nonneg (Nat.cast_nonneg _) h5, min_add_le _ _⟩

lemma groom_range (d : Draws) (s : GameState) (h : InRange s) :
    InRange (groom_action d s).2 := by
  obtain ⟨h1, h2, h3, h4, h5, h6⟩ := h
  unfold groom_action
  split
  · exact ⟨h1, h2, h3, h4, h5, h6⟩
  · exact ⟨h1, h2, min_add_nonneg (Nat.cast_nonneg _) h3, min_add_le _ _,
           min_add_nonneg (Nat.cast_nonneg _) h5, min_add_le _ _⟩

lemma evolve_range (s : GameState) (h : InRange s) :
    InRange (evolve_action s).2 := by
  obtain ⟨h1, h2, h3, h4, h5, h6⟩ := h
  unfold evolve_action
  dsimp only
  repeat' split
  · exact ⟨h1, h2, h3, h4, h5, h6⟩
  · exact ⟨h1, h2, h3, h4, h5, h6⟩
  · exact ⟨h1, h2, h3, h4, h5, h6⟩
  · exact ⟨min_add_nonneg (by norm_num) h1, min_add_le _ _,
           min_add_nonneg (by norm_num) h3, min_add_le _ _,
           min_add_nonneg (by norm_num) h5, min_add_le _ _⟩

/-- Every branch of the action dispatch keeps the three stats in [0,100]. -/
lemma action_dispatch_range (d : Draws) (a : String) (s : GameState)
    (h : InRange s) : InRange (action_dispatch d a s).2 := by
  unfold action_dispatch
  repeat' split
  all_goals
    first
      | exact feed_range d s h
      | exact play_range d s h
      | exact rest_range d s h
      | exact train_range d s h
      | exact explore_range d s h
      | exact meditate_range d s h
      | exact groom_range d s h
      | exact evolve_range s h
      | exact h

/-- A live or dead `update_stats` step keeps the three stats in [0,100],
provided the clock did not run backwards. -/
lemma update_stats_range (now : ℚ) (s : GameState) (hle : s.last_update ≤ now)
    (h : InRange s) : InRange (update_stats now s) := by
  by_cases ha : s.is_alive = false
  · rw [update_stats_dead now s ha]; exact h
  · obtain ⟨h1, h2, h3, h4, h5, h6⟩ := h
    have ha' : s.is_alive = true := by
      cases hb : s.is_alive
      · exact absurd hb ha
      · rfl
    have htd : 0 ≤ now - s.last_update := by linarith
    have h03 : 0 ≤ (0.3 : ℚ) * (now - s.last_update) := by positivity
    have h01 : 0 ≤ (0.1 : ℚ) * (now - s.last_update) := by positivity
    have h005 : 0 ≤ (0.05 : ℚ) * (now - s.last_update) := by positivity
    refine ⟨?_, ?_, ?_, ?_, ?_, ?_⟩
    · rw [update_hunger_eq now s ha']; exact max_sub_nonneg _ _
    · rw [update_hunger_eq now s ha']; exact max_sub_le h03 h2
    · rw [update_happiness_eq now s ha']; exact max_sub_nonneg _ _
    · rw [update_happiness_eq now s ha']; exact max_sub_le h03 h4
    · rw [update_health_eq now s ha']
      split_ifs
      · exact max_sub_nonneg _ _
      · exact min_add_nonneg h005 h5
      · exact h5
    · rw [update_health_eq now s ha']
      split_ifs
      · exact max_sub_le h01 h6
      · exact min_add_le _ _
      · exact h6

/-- The random-event check keeps the three stats in [0,100]: each applied
effect is clamped, untouched stats keep their old value. -/
lemma check_random_event_range (now : ℚ) (f : Bool) (i : Fin 9)
    (s : GameState) (h : InRange s) : InRange (check_random_event now f i s).2 := by
  obtain ⟨h1, h2, h3, h4, h5, h6⟩ := h
  unfold check_random_event
  repeat' split
  · exact ⟨h1, h2, h3, h4, h5, h6⟩
  · exact ⟨apply_effect_nonneg _ h1, apply_effect_le _ h2,
           apply_effect_nonneg _ h3, apply_effect_le _ h4,
           apply_effect_nonneg _ h5, apply_effect_le _ h6⟩
  · exact ⟨h1, h2, h3, h4, h5, h6⟩
  · exact ⟨h1, h2, h3, h4, h5, h6⟩

/-- Frame facts about the feed branch: alive flag, age and stage are
untouched, interactions do not decrease. -/
lemma feed_frame (d : Draws) (s : GameState) :
    (feed_action d s).2.is_alive = s.is_alive ∧
    (feed_action d s).2.age_days = s.age_days ∧
    s.evolution_stage ≤ (feed_action d s).2.evolution_stage ∧
    (feed_action d s).2.evolution_stage ≤ max s.evolution_stage 4 ∧
    s.interactions ≤ (feed_action d s).2.interactions := by
  unfold feed_action
  split <;>
    exact ⟨rfl, rfl, le_refl _, le_max_left _ _, by first | exact le_refl _ | exact Nat.le_succ _⟩

lemma play_frame (d : Draws) (s : GameState) :
    (play_action d s).2.is_alive = s.is_alive ∧
    (play_action d s).2.age_days = s.age_days ∧
    s.evolution_stage ≤ (play_action d s).2.evolution_stage ∧
    (play_action d s).2.evolution_stage ≤ max s.evolution_stage 4 ∧
    s.interactions ≤ (play_action d s).2.interactions := by
  unfold play_action
  split <;>
    exact ⟨rfl, rfl, le_refl _, le_max_left _ _, by first | exact le_refl _ | exact Nat.le_succ _⟩

lemma rest_frame (d : Draws) (s : GameState) :
    (rest_action d s).2.is_alive = s.is_alive ∧
    (rest_action d s).2.age_days = s.age_days ∧
    s.evolution_stage ≤ (rest_action d s).2.evolution_stage ∧
    (rest_action d s).2.evolution_stage ≤ max s.evolution_stage 4 ∧
    s.interactions ≤ (rest_action d s).2.interactions := by
  unfold rest_action
  split <;>
    exact ⟨rfl, rfl, le_refl _, le_max_left _ _, by first | exact le_refl _ | exact Nat.le_succ _⟩

lemma train_frame (d : Draws) (s : GameState) :
    (train_action d s).2.is_alive = s.is_alive ∧
    (train_action d s).2.age_days = s.age_days ∧
    s.evolution_stage ≤ (train_action d s).2.evolution_stage ∧
    (train_action d s).2.evolution_stage ≤ max s.evolution_stage 4 ∧
    s.interactions ≤ (train_action d s).2.interactions :=
  ⟨rfl, rfl, le_refl _, le_max_left _ _, Nat.le_succ _⟩

lemma explore_frame (d : Draws) (s : GameState) :
    (explore_action d s).2.is_alive = s.is_alive ∧
    (explore_action d s).2.age_days = s.age_days ∧
    s.evolution_stage ≤ (explore_action d s).2.evolution_stage ∧
    (explore_action d s).2.evolution_stage ≤ max s.evolution_stage 4 ∧
    s.interactions ≤ (explore_action d s).2.interactions := by
  unfold explore_action
  repeat' split
  all_goals exact ⟨rfl, rfl, le_refl _, le_max_left _ _, Nat.le_succ _⟩

lemma meditate_frame (d : Draws) (s : GameState) :
    (meditate_action d s).2.is_alive = s.is_alive ∧
    (meditate_action d s).2.age_days = s.age_days ∧
    s.evolution_stage ≤ (meditate_action d s).2.evolution_stage ∧
    (meditate_action d s).2.evolution_stage ≤ max s.evolution_stage 4 ∧
    s.interactions ≤ (meditate_action d s).2.interactions :=
  ⟨rfl, rfl, le_refl _, le_max_left _ _, Nat.le_succ _⟩

lemma groom_frame (d : Draws) (s : GameState) :
    (groom_action d s).2.is_alive = s.is_alive ∧
    (groom_action d s).2.age_days = s.age_days ∧
    s.evolution_stage ≤ (groom_action d s).2.evolution_stage ∧
    (groom_action d s).2.evolution_stage ≤ max s.evolution_stage 4 ∧
    s.interactions ≤ (groom_action d s).2.interactions := by
  unfold groom_action
  split <;>
    exact ⟨rfl, rfl, le_refl _, le_max_left _ _, by first | exact le_refl _ | exact Nat.le_succ _⟩

/-- Frame facts about the evolve branch: alive flag, age and interactions
are untouched; the stage never decreases and, because the increment is
guarded by the final-stage check, never leaves `[0, 4]`-from-above. -/
lemma evolve_frame (s : GameState) :
    (evolve_action s).2.is_alive = s.is_alive ∧
    (evolve_action s).2.age_days = s.age_days ∧
    s.evolution_stage ≤ (evolve_action s).2.evolution_stage ∧
    (evolve_action s).2.evolution_stage ≤ max s.evolution_stage 4 ∧
    s.interactions ≤ (evolve_action s).2.interactions := by
  unfold evolve_action
  split
  · exact ⟨rfl, rfl, le_refl _, le_max_left _ _, le_refl _⟩
  · next hstage =>
    have h4 : s.evolution_stage < 4 := by
      simpa [EVOLUTION_STAGES] using hstage
    dsimp only
    repeat' split
    all_goals
      refine ⟨rfl, rfl, ?_, ?_, le_refl _⟩ <;>
        first
          | exact le_refl _
          | exact le_max_left _ _
          | exact Nat.le_succ _
          | exact le_trans (Nat.succ_le_of_lt h4) (le_max_right _ _)

/-- C4: once `isAlive` is false it stays false: a time advance is a no-op,
the random-event check fires nothing and changes nothing, and any
`performAction` call fails with the deceased message and mutates nothing
(so hunger, happiness, health and evolutionStage are all unchanged). -/
theorem dead_pet_frozen (now : ℚ) (f : Bool) (i : Fin 9) (d : Draws)
    (a : String) (s : GameState) (h : s.is_alive = false) :
    update_stats now s = s ∧ check_random_event now f i s = (none, s) ∧
    perform_action now d a s = (.failure "Your spirit has faded...", s) := by
  refine ⟨update_stats_dead now s h, check_random_event_dead now f i s h, ?_⟩
  simp [perform_action, update_stats_dead now s h, h]

/-- C4 witness: the frozen-after-death property at a concrete dead pet. -/
theorem dead_pet_frozen_witness :
    csDead.is_alive = false ∧
    (update_stats 5 csDead = csDead ∧
     check_random_event 5 true 3 csDead = (none, csDead) ∧
     perform_action 5 d0 "feed" csDead =
       (.failure "Your spirit has faded...", csDead)) :=
  ⟨rfl, dead_pet_frozen 5 true 3 d0 "feed" csDead rfl⟩

/-- C10: no action's own stat effects touch `isAlive`, and neither does the
random-event check: the alive flag is mutated only inside `update_stats`'s
death check, so an action that floors a stat at exactly 0 leaves the pet
alive until the next time advance. -/
theorem alive_flag_only_in_death_check (now : ℚ) (f : Bool) (i : Fin 9)
    (d : Draws) (a : String) (s : GameState) :
    (action_dispatch d a s).2.is_alive = s.is_alive ∧
    (check_random_event now f i s).2.is_alive = s.is_alive := by
  constructor
  · unfold action_dispatch
    repeat' split
    all_goals
      first
        | exact (feed_frame d s).1
        | exact (play_frame d s).1
        | exact (rest_frame d s).1
        | exact (train_frame d s).1
        | exact (explore_frame d s).1
        | exact (meditate_frame d s).1
        | exact (groom_frame d s).1
        | exact (evolve_frame s).1
        | rfl
  · unfold check_random_event
    repeat' split
    all_goals rfl

/-- C3: calling evolve on a live pet at the final catalog stage.  In the
terminal variant (`spirit_hatch.py`) `can_evolve` returns false at the
final stage, so `evolve` enters its `not can_evolve()` branch and evaluates
`EVOLUTION_STAGES[evolution_stage + 1]` out of bounds: an `IndexError`, not
the "maximum evolution" message of the dead check below it.  The HTTP
variant (`main.py`) checks the final stage first and returns the message
with no mutation, which is what the claim (and the dead branch of the
terminal code) describe. -/
theorem evolve_at_final_stage_indexerror :
    Spirit.evolve pMax = Except.error "IndexError: list index out of range" ∧
    action_dispatch d0 "evolve" sMax =
      (.ok ("🌟 " ++ sMax.name ++ " is at maximum evolution!"), sMax) := by
  constructor <;> rfl

/-- C7: each saturating action, called (after the preceding time advance)
in a state where its guard holds, returns its deterministic "already at
max" message and the state completely unchanged — in particular no stat
moves and `interactions` is not incremented. -/
theorem saturating_actions_no_mutation (d : Draws) (s : GameState) :
    (95 ≤ s.hunger →
      action_dispatch d "feed" s = (.ok (s.name ++ " is already full! 🍽️"), s)) ∧
    (95 ≤ s.happiness →
      action_dispatch d "play" s = (.ok (s.name ++ " is already very happy! 😊"), s)) ∧
    (95 ≤ s.health →
      action_dispatch d "rest" s = (.ok (s.name ++ " is already well-rested! 😴"), s)) ∧
    (90 ≤ s.happiness ∧ 90 ≤ s.health →
      action_dispatch d "groom" s = (.ok (s.name ++ " is already pristine! ✨"), s)) := by
  refine ⟨fun h => ?_, fun h => ?_, fun h => ?_, fun h => ?_⟩
  · show feed_action d s = _
    unfold feed_action
    rw [if_pos h]
  · show play_action d s = _
    unfold play_action
    rw [if_pos h]
  · show rest_action d s = _
    unfold rest_action
    rw [if_pos h]
  · show groom_action d s = _
    unfold groom_action
    rw [if_pos h]

/-- C7 witness: all four guards at a concrete pet with every stat at 96. -/
theorem saturating_actions_no_mutation_witness :
    action_dispatch d0 "feed" s96 = (.ok (s96.name ++ " is already full! 🍽️"), s96) ∧
    action_dispatch d0 "play" s96 = (.ok (s96.name ++ " is already very happy! 😊"), s96) ∧
    action_dispatch d0 "rest" s96 = (.ok (s96.name ++ " is already well-rested! 😴"), s96) ∧
    action_dispatch d0 "groom" s96 = (.ok (s96.name ++ " is already pristine! ✨"), s96) :=
  ⟨(saturating_actions_no_mutation d0 s96).1 (by norm_num [s96]),
   (saturating_actions_no_mutation d0 s96).2.1 (by norm_num [s96]),
   (saturating_actions_no_mutation d0 s96).2.2.1 (by norm_num [s96]),
   (saturating_actions_no_mutation d0 s96).2.2.2 (by norm_num [s96])⟩

/-- The fresh state `cs` after a 10-second `update_stats` advance: hunger
and happiness have decayed from 50 to 47, nothing else moved. -/
lemma update_stats_cs_10 : update_stats 10 cs =
    (⟨"Spirit", 47, 47, 50, 0, 0, 0, 0, true, 0, 10, 0, 0⟩ : GameState) := by
  unfold update_stats cs
  norm_num [max_def, min_def]

/-- C8 counterexample: `performAction("dance")` on a live pet 10 s after
the previous update does return the `{"error": "Invalid action"}` failure,
but the call is not mutation-free: the `update_stats()` it runs first
decays hunger from 50 to 47, so "structured failure and no state mutation"
is false as stated. -/
theorem unknown_action_cex :
    ¬((perform_action 10 d0 "dance" cs).1 = ActionResult.errorInvalid ∧
      (perform_action 10 d0 "dance" cs).2 = cs) := by
  have e2 : perform_action 10 d0 "dance" cs =
      (.errorInvalid, (⟨"Spirit", 47, 47, 50, 0, 0, 0, 0, true, 0, 10, 0, 0⟩ : GameState)) := by
    unfold perform_action
    rw [update_stats_cs_10]
    rfl
  rintro ⟨-, hstate⟩
  rw [e2] at hstate
  simp only [cs, GameState.mk.injEq] at hstate
  norm_num at hstate

/-- C8 (amended): for an action identifier outside the supported set, the
dispatch contributes nothing: the call returns the `Invalid action`
structured failure when the pet is alive after the initial time advance
(the deceased failure otherwise), and the resulting state is exactly the
state `update_stats` produced — the unknown-action branch itself mutates
nothing. -/
theorem unknown_action_no_dispatch_effect (now : ℚ) (d : Draws) (a : String)
    (s : GameState) (h1 : a ≠ "feed") (h2 : a ≠ "play") (h3 : a ≠ "rest")
    (h4 : a ≠ "train") (h5 : a ≠ "explore") (h6 : a ≠ "meditate")
    (h7 : a ≠ "groom") (h8 : a ≠ "evolve") :
    perform_action now d a s =
      (if (update_stats now s).is_alive = true then ActionResult.errorInvalid
       else ActionResult.failure "Your spirit has faded...",
       update_stats now s) := by
  unfold perform_action
  cases hb : (update_stats now s).is_alive
  · simp [hb]
  · simp only [hb, Bool.true_eq_false, if_neg, if_pos]
    unfold action_dispatch
    simp [h1, h2, h3, h4, h5, h6, h7, h8]

/-- C8 witness: the amended property at the concrete input of the
counterexample. -/
theorem unknown_action_no_dispatch_effect_witness :
    ("dance" : String) ≠ "feed" ∧
    perform_action 10 d0 "dance" cs =
      (if (update_stats 10 cs).is_alive = true then ActionResult.errorInvalid
       else ActionResult.failure "Your spirit has faded...",
       update_stats 10 cs) :=
  ⟨by decide,
   unknown_action_no_dispatch_effect 10 d0 "dance" cs (by decide) (by decide)
     (by decide) (by decide) (by decide) (by decide) (by decide) (by decide)⟩

/-- C2 counterexample: with 65 s elapsed since the last day tick (two full
30-s intervals plus 5 s), `update_stats` in `main.py` increments `ageDays`
by 1, not by 2, and sets `lastDayTickAt` to `now` (= 65) rather than
advancing it by two whole intervals (to 60) — the remainder is dropped. -/
theorem day_tick_cex :
    ¬((update_stats 65 cs).age_days = cs.age_days + 2 ∧
      (update_stats 65 cs).last_day_update = cs.last_day_update + 60) := by
  have e : (update_stats 65 cs).age_days = 1 := by
    unfold update_stats cs
    norm_num [max_def, min_def]
  rintro ⟨ha, -⟩
  rw [e] at ha
  simp [cs] at ha

/-- C2 (amended): on a day tick (at least 30 s since `lastDayTickAt`),
`main.py`'s `update_stats` increments `ageDays` by exactly 1 — regardless
of how many full intervals elapsed — and resets `lastDayTickAt` to `now`,
discarding the remainder; the terminal variant's `update_game_days` does
credit `⌊elapsed/30⌋` days at once, but it too resets its day timestamp to
`now`, discarding the remainder. -/
theorem day_tick_amended (now : ℚ) (s : GameState) (last_day : ℚ) (age : ℕ)
    (h1 : s.is_alive = true) (h2 : 30 ≤ now - s.last_day_update)
    (h3 : 30 ≤ now - last_day) :
    (update_stats now s).age_days = s.age_days + 1 ∧
    (update_stats now s).last_day_update = now ∧
    update_game_days now last_day age =
      ((⌊(now - last_day) / 30⌋).toNat, age + (⌊(now - last_day) / 30⌋).toNat, now) := by
  refine ⟨?_, ?_, ?_⟩
  · unfold update_stats
    simp [h1, h2]
  · unfold update_stats
    simp [h1, h2]
  · unfold update_game_days
    simp [h3]

/-- C2 witness: the amended day-tick behaviour at 65 elapsed seconds. -/
theorem day_tick_amended_witness :
    cs.is_alive = true ∧ 30 ≤ (65 : ℚ) - cs.last_day_update ∧
    ((update_stats 65 cs).age_days = cs.age_days + 1 ∧
     (update_stats 65 cs).last_day_update = 65 ∧
     update_game_days 65 0 0 =
       ((⌊((65 : ℚ) - 0) / 30⌋).toNat, 0 + (⌊((65 : ℚ) - 0) / 30⌋).toNat, 65)) :=
  ⟨rfl, by norm_num [cs],
   day_tick_amended 65 cs 0 0 rfl (by norm_num [cs]) (by norm_num)⟩

/-- C6: in a live `update_stats` step, writing `hu` and `ha` for the
post-decay hunger and happiness: if `hu < 30` or `ha < 30` health drops by
`0.1 *` elapsed, floored at 0; otherwise if `hu > 70` and `ha > 70` it
recovers by `0.05 *` elapsed (a strictly smaller rate, `0.05 < 0.1`),
capped at 100; in every remaining case — including `hu` or `ha` exactly 30
or exactly 70 — health is unchanged. -/
theorem health_cross_effect (now : ℚ) (s : GameState) (h1 : s.is_alive = true) :
    ((max 0 (s.hunger - 0.3 * (now - s.last_update)) < 30 ∨
      max 0 (s.happiness - 0.3 * (now - s.last_update)) < 30) →
       (update_stats now s).health = max 0 (s.health - 0.1 * (now - s.last_update))) ∧
    (¬(max 0 (s.hunger - 0.3 * (now - s.last_update)) < 30 ∨
       max 0 (s.happiness - 0.3 * (now - s.last_update)) < 30) →
     (70 < max 0 (s.hunger - 0.3 * (now - s.last_update)) ∧
      70 < max 0 (s.happiness - 0.3 * (now - s.last_update))) →
       (update_stats now s).health = min 100 (s.health + 0.05 * (now - s.last_update))) ∧
    (¬(max 0 (s.hunger - 0.3 * (now - s.last_update)) < 30 ∨
       max 0 (s.happiness - 0.3 * (now - s.last_update)) < 30) →
     ¬(70 < max 0 (s.hunger - 0.3 * (now - s.last_update)) ∧
       70 < max 0 (s.happiness - 0.3 * (now - s.last_update))) →
       (update_stats now s).health = s.health) ∧
    (0.05 : ℚ) < 0.1 := by
  refine ⟨fun h => ?_, fun hn h => ?_, fun hn hn2 => ?_, by norm_num⟩
  · rw [update_health_eq now s h1, if_pos h]
  · rw [update_health_eq now s h1, if_neg hn, if_pos h]
  · rw [update_health_eq now s h1, if_neg hn, if_neg hn2]

/-- C6 witness: the penalty branch at a pet whose hunger decays to 17
after 10 s (below 30), with health dropping from 50 to 49. -/
theorem health_cross_effect_witness :
    s6.is_alive = true ∧
    (max 0 (s6.hunger - 0.3 * ((10 : ℚ) - s6.last_update)) < 30 ∨
     max 0 (s6.happiness - 0.3 * ((10 : ℚ) - s6.last_update)) < 30) ∧
    (update_stats 10 s6).health = max 0 (s6.health - 0.1 * ((10 : ℚ) - s6.last_update)) :=
  ⟨rfl, by norm_num [s6, max_def],
   (health_cross_effect 10 s6 rfl).1 (by norm_num [s6, max_def])⟩

/-- C1: starting from stats in [0,100], every operation — a time advance
over an arbitrary (forward) elapsed interval, the random-event check with
any roll, and `performAction` with any action string and any draws — leaves
hunger, happiness and health in [0,100]. -/
theorem stats_always_in_range (now : ℚ) (f : Bool) (i : Fin 9) (d : Draws)
    (a : String) (s : GameState) (hle : s.last_update ≤ now) (h : InRange s) :
    InRange (update_stats now s) ∧
    InRange (check_random_event now f i s).2 ∧
    InRange (perform_action now d a s).2 := by
  refine ⟨update_stats_range now s hle h, check_random_event_range now f i s h, ?_⟩
  unfold perform_action
  dsimp only
  split
  · exact update_stats_range now s hle h
  · exact action_dispatch_range d a _ (update_stats_range now s hle h)

/-- C1 witness: the range invariant at a fresh pet, 10 s of elapsed time,
one event roll and one feed action. -/
theorem stats_always_in_range_witness :
    cs.last_update ≤ (10 : ℚ) ∧ InRange cs ∧
    (InRange (update_stats 10 cs) ∧
     InRange (check_random_event 10 true 4 cs).2 ∧
     InRange (perform_action 10 d0 "feed" cs).2) :=
  ⟨by norm_num [cs], by norm_num [InRange, cs],
   stats_always_in_range 10 true 4 d0 "feed" cs (by norm_num [cs]) (by norm_num [InRange, cs])⟩

lemma update_stats_counters (now : ℚ) (s : GameState) :
    s.age_days ≤ (update_stats now s).age_days ∧
    (update_stats now s).interactions = s.interactions ∧
    (update_stats now s).evolution_stage = s.evolution_stage := by
  unfold update_stats
  split
  · exact ⟨le_refl _, rfl, rfl⟩
  · dsimp only
    split
    · exact ⟨Nat.le_succ _, rfl, rfl⟩
    · exact ⟨le_refl _, rfl, rfl⟩

lemma check_random_event_counters (now : ℚ) (f : Bool) (i : Fin 9) (s : GameState) :
    (check_random_event now f i s).2.age_days = s.age_days ∧
    (check_random_event now f i s).2.interactions = s.interactions ∧
    (check_random_event now f i s).2.evolution_stage = s.evolution_stage := by
  unfold check_random_event
  repeat' split
  all_goals exact ⟨rfl, rfl, rfl⟩

lemma action_dispatch_counters (d : Draws) (a : String) (s : GameState) :
    (action_dispatch d a s).2.age_days = s.age_days ∧
    s.interactions ≤ (action_dispatch d a s).2.interactions ∧
    s.evolution_stage ≤ (action_dispatch d a s).2.evolution_stage ∧
    (action_dispatch d a s).2.evolution_stage ≤ max s.evolution_stage 4 := by
  unfold action_dispatch
  repeat' split
  all_goals
    first
      | (obtain ⟨-, hage, hst, hstm, hint⟩ := feed_frame d s; exact ⟨hage, hint, hst, hstm⟩)
      | (obtain ⟨-, hage, hst, hstm, hint⟩ := play_frame d s; exact ⟨hage, hint, hst, hstm⟩)
      | (obtain ⟨-, hage, hst, hstm, hint⟩ := rest_frame d s; exact ⟨hage, hint, hst, hstm⟩)
      | (obtain ⟨-, hage, hst, hstm, hint⟩ := train_frame d s; exact ⟨hage, hint, hst, hstm⟩)
      | (obtain ⟨-, hage, hst, hstm, hint⟩ := explore_frame d s; exact ⟨hage, hint, hst, hstm⟩)
      | (obtain ⟨-, hage, hst, hstm, hint⟩ := meditate_frame d s; exact ⟨hage, hint, hst, hstm⟩)
      | (obtain ⟨-, hage, hst, hstm, hint⟩ := groom_frame d s; exact ⟨hage, hint, hst, hstm⟩)
      | (obtain ⟨-, hage, hst, hstm, hint⟩ := evolve_frame s; exact ⟨hage, hint, hst, hstm⟩)
      | exact ⟨rfl, le_refl _, le_refl _, le_max_left _ _⟩

/-- One engine operation never decreases age, interactions or stage, and
never pushes the stage above `max` of its old value and 4. -/
lemma step_counters (o : Op) (s : GameState) :
    s.age_days ≤ (step o s).age_days ∧
    s.interactions ≤ (step o s).interactions ∧
    s.evolution_stage ≤ (step o s).evolution_stage ∧
    (step o s).evolution_stage ≤ max s.evolution_stage 4 := by
  cases o with
  | advance now =>
    obtain ⟨ha, hi, hs⟩ := update_stats_counters now s
    exact ⟨ha, le_of_eq hi.symm, le_of_eq hs.symm,
           le_trans (le_of_eq hs) (le_max_left _ _)⟩
  | read now fire idx =>
    obtain ⟨ua, ui, us⟩ := update_stats_counters now s
    obtain ⟨ea, ei, es⟩ := check_random_event_counters now fire idx (update_stats now s)
    have hstep : step (Op.read now fire idx) s =
        (check_random_event now fire idx (update_stats now s)).2 := rfl
    rw [hstep, ea, ei, es, ui, us]
    exact ⟨ua, le_refl _, le_refl _, le_max_left _ _⟩
  | act now d a =>
    obtain ⟨ua, ui, us⟩ := update_stats_counters now s
    have hstep : step (Op.act now d a) s = (perform_action now d a s).2 := rfl
    rw [hstep]
    unfold perform_action
    dsimp only
    split
    · dsimp only
      rw [ui, us]
      exact ⟨ua, le_refl _, le_refl _, le_max_left _ _⟩
    · obtain ⟨da, di, ds, dsm⟩ := action_dispatch_counters d a (update_stats now s)
      rw [da]
      rw [ui] at di
      rw [us] at ds dsm
      exact ⟨ua, di, ds, dsm⟩

/-- C5: across any operation sequence, `ageDays`, `interactions` and
`evolutionStage` never decrease, and the stage never exceeds the last
index of the 5-entry evolution catalog. -/
theorem counters_monotone (ops : List Op) (s : GameState)
    (h : s.evolution_stage ≤ EVOLUTION_STAGES.length - 1) :
    s.age_days ≤ (run ops s).age_days ∧
    s.interactions ≤ (run ops s).interactions ∧
    s.evolution_stage ≤ (run ops s).evolution_stage ∧
    (run ops s).evolution_stage ≤ EVOLUTION_STAGES.length - 1 := by
  have hlen : EVOLUTION_STAGES.length - 1 = 4 := rfl
  rw [hlen] at h ⊢
  induction ops generalizing s with
  | nil => exact ⟨le_refl _, le_refl _, le_refl _, h⟩
  | cons o t ih =>
    obtain ⟨a1, a2, a3, a4⟩ := step_counters o s
    have hstep : (step o s).evolution_stage ≤ 4 :=
      le_trans a4 (max_le h (le_refl 4))
    obtain ⟨b1, b2, b3, b4⟩ := ih (step o s) hstep
    exact ⟨le_trans a1 b1, le_trans a2 b2, le_trans a3 b3, b4⟩

/-- C5 witness: monotonicity over a concrete three-operation session. -/
theorem counters_monotone_witness :
    cs.evolution_stage ≤ EVOLUTION_STAGES.length - 1 ∧
    (cs.age_days ≤ (run [Op.act 10 d0 "feed", Op.advance 50, Op.read 70 true 4] cs).age_days ∧
     cs.interactions ≤ (run [Op.act 10 d0 "feed", Op.advance 50, Op.read 70 true 4] cs).interactions ∧
     cs.evolution_stage ≤ (run [Op.act 10 d0 "feed", Op.advance 50, Op.read 70 true 4] cs).evolution_stage ∧
     (run [Op.act 10 d0 "feed", Op.advance 50, Op.read 70 true 4] cs).evolution_stage ≤
       EVOLUTION_STAGES.length - 1) :=
  ⟨by decide,
   counters_monotone [Op.act 10 d0 "feed", Op.advance 50, Op.read 70 true 4] cs (by decide)⟩

/-- With zero elapsed time, a day timer within its interval, and all three
stats strictly positive (health also at most 100), a live `update_stats`
is the identity: nothing decays, the death check stays quiet, no day
ticks. -/
lemma update_stats_fixed (now : ℚ) (s : GameState)
    (ha : s.is_alive = true) (hu : s.last_update = now)
    (hd : now - s.last_day_update < 30)
    (h1 : 0 < s.hunger) (h2 : 0 < s.happiness) (h3 : 0 < s.health)
    (h4 : s.health ≤ 100) :
    update_stats now s = s := by
  have ht : now - s.last_update = 0 := by rw [hu]; ring
  unfold update_stats
  rw [if_neg (by simp [ha])]
  dsimp only
  rw [if_neg (not_le.mpr hd), ht]
  ext
  · rfl
  · show max 0 (s.hunger - 0.3 * 0) = s.hunger
    rw [mul_zero, sub_zero, max_eq_right h1.le]
  · show max 0 (s.happiness - 0.3 * 0) = s.happiness
    rw [mul_zero, sub_zero, max_eq_right h2.le]
  · show (if max 0 (s.hunger - 0.3 * 0) < 30 ∨ max 0 (s.happiness - 0.3 * 0) < 30 then
        max 0 (s.health - 0.1 * 0)
      else if 70 < max 0 (s.hunger - 0.3 * 0) ∧ 70 < max 0 (s.happiness - 0.3 * 0) then
        min 100 (s.health + 0.05 * 0)
      else s.health) = s.health
    split_ifs
    · rw [mul_zero, sub_zero, max_eq_right h3.le]
    · rw [mul_zero, add_zero, min_eq_right h4]
    · rfl
  · rfl
  · rfl
  · rfl
  · rfl
  · show (!(decide (max 0 (s.hunger - 0.3 * 0) ≤ 0) ||
            decide (max 0 (s.happiness - 0.3 * 0) ≤ 0) ||
            decide ((if max 0 (s.hunger - 0.3 * 0) < 30 ∨ max 0 (s.happiness - 0.3 * 0) < 30 then
                max 0 (s.health - 0.1 * 0)
              else if 70 < max 0 (s.hunger - 0.3 * 0) ∧ 70 < max 0 (s.happiness - 0.3 * 0) then
                min 100 (s.health + 0.05 * 0)
              else s.health) ≤ 0))) = s.is_alive
    rw [ha]
    have e1 : max 0 (s.hunger - 0.3 * 0) = s.hunger := by
      rw [mul_zero, sub_zero, max_eq_right h1.le]
    have e2 : max 0 (s.happiness - 0.3 * 0) = s.happiness := by
      rw [mul_zero, sub_zero, max_eq_right h2.le]
    rw [e1, e2]
    have e3 : (if s.hunger < 30 ∨ s.happiness < 30 then max 0 (s.health - 0.1 * 0)
        else if 70 < s.hunger ∧ 70 < s.happiness then min 100 (s.health + 0.05 * 0)
        else s.health) = s.health := by
      split_ifs
      · rw [mul_zero, sub_zero, max_eq_right h3.le]
      · rw [mul_zero, add_zero, min_eq_right h4]
      · rfl
    rw [e3]
    simp [not_le.mpr h1, not_le.mpr h2, not_le.mpr h3]
  · rfl
  · exact hu.symm
  · rfl
  · rfl

/-- When the 60-second event interval has not elapsed, the event check
returns no event and changes nothing. -/
lemma check_random_event_fixed (now : ℚ) (f : Bool) (i : Fin 9)
    (s : GameState) (hc : now - s.last_event_check < 60) :
    check_random_event now f i s = (none, s) := by
  unfold check_random_event
  split
  · rfl
  · rw [if_neg (not_le.mpr hc)]

/-- The event check never touches the alive flag or the update/day
timestamps. -/
lemma check_random_event_stable_fields (now : ℚ) (f : Bool) (i : Fin 9)
    (s : GameState) :
    (check_random_event now f i s).2.is_alive = s.is_alive ∧
    (check_random_event now f i s).2.last_update = s.last_update ∧
    (check_random_event now f i s).2.last_day_update = s.last_day_update := by
  unfold check_random_event
  repeat' split
  all_goals exact ⟨rfl, rfl, rfl⟩

/-- After a live event check at instant `now`, the stored event timestamp
is within the 60-second window of `now`: either it was just reset to `now`
or it was already inside the window. -/
lemma check_random_event_timer (now : ℚ) (f : Bool) (i : Fin 9)
    (s : GameState) (ha : s.is_alive = true) :
    now - (check_random_event now f i s).2.last_event_check < 60 := by
  unfold check_random_event
  rw [if_neg (by simp [ha])]
  split
  · dsimp only
    split
    · show now - now < 60; norm_num
    · show now - now < 60; norm_num
  · next h => exact not_le.mp h

/-- If `update_stats` leaves the pet alive, the update timestamp is `now`
and the day timer sits inside its 30-second window. -/
lemma update_stats_alive_props (now : ℚ) (s : GameState)
    (ha : (update_stats now s).is_alive = true) :
    (update_stats now s).last_update = now ∧
    now - (update_stats now s).last_day_update < 30 := by
  by_cases hs : s.is_alive = false
  · rw [update_stats_dead now s hs] at ha
    rw [hs] at ha
    cases ha
  · unfold update_stats
    rw [if_neg hs]
    dsimp only
    split
    · exact ⟨rfl, by norm_num⟩
    · next h => exact ⟨rfl, not_le.mp h⟩

/-- The first `getState` on `c9s` at instant 100: no decay (zero elapsed
time), but the event check fires the Dark Cloud event, flooring happiness
at 0 while the pet stays alive. -/
lemma get_state_c9s :
    get_state 100 true 4 c9s = (c9s1, some ⟨"Dark Cloud", none, some (-10), some (-5)⟩) := by
  unfold get_state
  dsimp only
  rw [update_stats_fixed 100 c9s rfl rfl (by norm_num [c9s]) (by norm_num [c9s])
        (by norm_num [c9s]) (by norm_num [c9s]) (by norm_num [c9s])]
  unfold check_random_event
  rw [if_neg (by norm_num [c9s]), if_pos (by norm_num [c9s]), if_pos rfl]
  dsimp only
  simp only [Prod.mk.injEq]
  refine ⟨?_, rfl⟩
  have hev : RANDOM_EVENTS.getD ((4 : Fin 9) : ℕ) ⟨"", none, none, none⟩ =
      (⟨"Dark Cloud", none, some (-10), some (-5)⟩ : REvent) := rfl
  have hev2 : (RANDOM_EVENTS[((4 : Fin 9) : ℕ)]?).getD
      (⟨"", none, none, none⟩ : REvent) =
      (⟨"Dark Cloud", none, some (-10), some (-5)⟩ : REvent) := rfl
  ext <;> norm_num [hev, hev2, c9s, c9s1, apply_effect, clamp, max_def, min_def]

/-- The second `getState` on `c9s1` at the same instant 100: zero elapsed
time, yet the death check sees the event-floored happiness 0 and kills the
pet. -/
lemma get_state_c9s1 : get_state 100 true 4 c9s1 = (c9s2, none) := by
  unfold get_state
  dsimp only
  have hupd : update_stats 100 c9s1 = c9s2 := by
    unfold update_stats
    rw [if_neg (by norm_num [c9s1])]
    dsimp only
    rw [if_neg (by norm_num [c9s1])]
    ext <;> norm_num [c9s1, c9s2, max_def, min_def]
  rw [hupd, check_random_event_dead 100 true 4 c9s2 rfl]

/-- A fresh pet read at instant 0: nothing decays, no day or event timer
has elapsed, so `getState` returns the state unchanged with no event. -/
lemma get_state_cs0 : get_state 0 false 0 cs = (cs, none) := by
  unfold get_state
  dsimp only
  rw [update_stats_fixed 0 cs rfl rfl (by norm_num [cs]) (by norm_num [cs])
        (by norm_num [cs]) (by norm_num [cs]) (by norm_num [cs]),
      check_random_event_fixed 0 false 0 cs (by norm_num [cs])]

/-- C9 counterexample: two `getState` calls at the same instant 100 on the
pet `c9s`.  The first fires the Dark Cloud event, flooring happiness at 0
while leaving the pet alive; the second call's death check then flips
`isAlive`, so the two returned states differ in more than the random-event
outcome. -/
theorem get_state_not_idempotent_cex :
    (get_state 100 true 4 ((get_state 100 true 4 c9s).1)).1 ≠ (get_state 100 true 4 c9s).1 ∧
    (get_state 100 true 4 c9s).1.is_alive = true ∧
    (get_state 100 true 4 ((get_state 100 true 4 c9s).1)).1.is_alive = false := by
  rw [get_state_c9s]
  dsimp only
  rw [get_state_c9s1]
  refine ⟨?_, rfl, rfl⟩
  intro h
  have hflag := congrArg GameState.is_alive h
  simp [c9s1, c9s2] at hflag

/-- C9 (amended): `getState` is idempotent at a fixed instant provided the
first call leaves the pet dead or with all three stats strictly positive
(health also within bounds): the second call returns the identical state
and never triggers an event.  The proviso is necessary: a random event on
the first call may floor a stat at 0, and the second call's death check
then flips `isAlive` (see the counterexample). -/
theorem get_state_idem_amended (now : ℚ) (f1 f2 : Bool) (i1 i2 : Fin 9)
    (s : GameState)
    (hgood : (get_state now f1 i1 s).1.is_alive = false ∨
      (0 < (get_state now f1 i1 s).1.hunger ∧
       0 < (get_state now f1 i1 s).1.happiness ∧
       0 < (get_state now f1 i1 s).1.health ∧
       (get_state now f1 i1 s).1.health ≤ 100)) :
    get_state now f2 i2 ((get_state now f1 i1 s).1) =
      ((get_state now f1 i1 s).1, none) := by
  have hs1 : (get_state now f1 i1 s).1 =
      (check_random_event now f1 i1 (update_stats now s)).2 := rfl
  set s1 := (get_state now f1 i1 s).1 with hset
  by_cases hal : s1.is_alive = false
  · unfold get_state
    dsimp only
    rw [update_stats_dead now s1 hal, check_random_event_dead now f2 i2 s1 hal]
  · have ha : s1.is_alive = true := by
      cases hb : s1.is_alive
      · exact absurd hb hal
      · rfl
    obtain ⟨hp1, hp2, hp3, hp4⟩ :
        0 < s1.hunger ∧ 0 < s1.happiness ∧ 0 < s1.health ∧ s1.health ≤ 100 := by
      rcases hgood with h | h
      · exact absurd h hal
      · exact h
    have hfields := check_random_event_stable_fields now f1 i1 (update_stats now s)
    have hau : (update_stats now s).is_alive = true := by
      rw [hs1, hfields.1] at ha
      exact ha
    have hprops := update_stats_alive_props now s hau
    have hlu : s1.last_update = now := by
      rw [hs1, hfields.2.1]
      exact hprops.1
    have hld : now - s1.last_day_update < 30 := by
      rw [hs1, hfields.2.2]
      exact hprops.2
    have hlec : now - s1.last_event_check < 60 := by
      rw [hs1]
      exact check_random_event_timer now f1 i1 (update_stats now s) hau
    have e_upd : update_stats now s1 = s1 :=
      update_stats_fixed now s1 ha hlu hld hp1 hp2 hp3 hp4
    unfold get_state
    dsimp only
    rw [e_upd, check_random_event_fixed now f2 i2 s1 hlec]

/-- C9 witness: the amended idempotence at a fresh pet read twice at
instant 0. -/
theorem get_state_idem_amended_witness :
    (0 < (get_state 0 false 0 cs).1.hunger ∧
     0 < (get_state 0 false 0 cs).1.happiness ∧
     0 < (get_state 0 false 0 cs).1.health ∧
     (get_state 0 false 0 cs).1.health ≤ 100) ∧
    get_state 0 false 0 ((get_state 0 false 0 cs).1) =
      ((get_state 0 false 0 cs).1, none) :=
  ⟨by rw [get_state_cs0]; norm_num [cs],
   get_state_idem_amended 0 false false 0 0 cs
     (Or.inr (by rw [get_state_cs0]; norm_num [cs]))⟩

end SpiritHatch
